import Mathlib

/-!
Verification of the covalent-radii lookup layer of qcelemental
(src/qcelemental/covalent_radii.py) against its specification.

The file embeds the code shallowly:

* `Datum` and its unit conversion, the periodic-table index (`periodictable.E`,
  `periodictable.to_E`) and the ALVAREZ2008 raw data table are not part of the
  provided sources (only `covalent_radii.py` is); they are modelled from the
  specification, and each such definition says so in its doc comment.
* `CovalentRadii.init`, `CovalentRadiiT.get`, `CovalentRadiiT.string_representation`
  and the `write_c_header` text generation are translated directly from
  `covalent_radii.py`.

Python exceptions become an `Except QCError` result; the Python `dict` becomes
an association list with replace-on-insert semantics; `Decimal` values become
exact rationals (`Rat`).
-/

set_option autoImplicit false

/-- Modelled from the spec: the error kinds surfaced by the data-access layer
(spec section 7 and the exceptions module, which is not among the sources).
`NotAnElementError` is the unresolvable-identifier condition,
`DataUnavailableError` the data-unavailable condition (carrying the data kind
and the identifier), `UnknownUnitError` the undefined-conversion condition,
and `KeyError` models the Python built-in raised on an unsupported context. -/
inductive QCError where
  | NotAnElementError (identifier : String)
  | DataUnavailableError (dataType : String) (identifier : String)
  | UnknownUnitError (unit : String)
  | KeyError (msg : String)
  deriving DecidableEq, Repr

deriving instance DecidableEq for Except

/-- Modelled from the spec: the `Datum` value object of `datum.py` (not among
the sources): a label, a unit string, an arbitrary-precision value (`Decimal`
becomes `Rat`), an optional comment and an optional DOI (spec section 3). -/
structure Datum where
  label : String
  units : String
  data : Rat
  comment : Option String
  doi : Option String
  deriving DecidableEq, Repr

/-- Modelled from the spec: the fixed angstrom-per-bohr conversion constant
(spec section 8: angstrom and bohr are related via a fixed constant). -/
def bohr2angstroms : Rat := mkRat 52917721067 100000000000

/-- Modelled from the spec: the bohr-per-angstrom factor, the exact reciprocal
of `bohr2angstroms` (see `angstrom2bohr_mul_bohr2angstroms`). -/
def angstrom2bohr : Rat := mkRat 100000000000 52917721067

/-- Modelled from the spec: the unit-conversion factor table (spec section 3:
conversion must use an exact or well-defined conversion factor table).  The
factor is the number the stored value is multiplied by to express it in the
target unit; it is undefined (`none`) for unit pairs outside the table. -/
def conversionFactor (fromUnit toUnit : String) : Option Rat :=
  if fromUnit = toUnit then some 1
  else if fromUnit = "angstrom" ∧ toUnit = "bohr" then some angstrom2bohr
  else if fromUnit = "bohr" ∧ toUnit = "angstrom" then some bohr2angstroms
  else none

/-- Modelled from the spec: `Datum.to_units` (spec section 4.1): rescale the
stored value by the conversion factor between the stored unit and the target
unit; fail with an UnknownUnitError-kind condition when the factor is
undefined. -/
def Datum.to_units (d : Datum) (targetUnit : String) : Except QCError Rat :=
  match conversionFactor d.units targetUnit with
  | some f => .ok (d.data * f)
  | none => .error (.UnknownUnitError (d.units ++ " -> " ++ targetUnit))

/-- Modelled from the spec: the Datum-returning form of conversion (spec
section 4.1: returns a new numeric value and/or a new Datum). -/
def Datum.to_units_datum (d : Datum) (targetUnit : String) : Except QCError Datum :=
  (d.to_units targetUnit).map
    (fun v => { d with units := targetUnit, data := v })

namespace periodictable

/-- Modelled from the spec: the canonical element symbols of the periodic
table in atomic-number order (spec section 3: atomic number unique positive
integer; section 4.3: canonical periodic-table order by atomic number).
Element z has symbol `E.get (z-1)`. -/
def E : List String :=
  ["H", "He", "Li", "Be", "B", "C", "N", "O", "F", "Ne",
   "Na", "Mg", "Al", "Si", "P", "S", "Cl", "Ar", "K", "Ca",
   "Sc", "Ti", "V", "Cr", "Mn", "Fe", "Co", "Ni", "Cu", "Zn",
   "Ga", "Ge", "As", "Se", "Br", "Kr", "Rb", "Sr", "Y", "Zr",
   "Nb", "Mo", "Tc", "Ru", "Rh", "Pd", "Ag", "Cd", "In", "Sn",
   "Sb", "Te", "I", "Xe", "Cs", "Ba", "La", "Ce", "Pr", "Nd",
   "Pm", "Sm", "Eu", "Gd", "Tb", "Dy", "Ho", "Er", "Tm", "Yb",
   "Lu", "Hf", "Ta", "W", "Re", "Os", "Ir", "Pt", "Au", "Hg",
   "Tl", "Pb", "Bi", "Po", "At", "Rn", "Fr", "Ra", "Ac", "Th",
   "Pa", "U", "Np", "Pu", "Am", "Cm", "Bk", "Cf", "Es", "Fm",
   "Md", "No", "Lr", "Rf", "Db", "Sg", "Bh", "Hs", "Mt", "Ds",
   "Rg", "Cn", "Nh", "Fl", "Mc", "Lv", "Ts", "Og"]

/-- An identifier passed to the lookup layer: a Python `int` or `str`. -/
inductive AtomArg where
  | ofInt (z : Int)
  | ofStr (s : String)
  deriving DecidableEq, Repr

/-- Modelled from the spec: case normalisation of a bare symbol (spec section
4.2: symbols are case-insensitive; the canonical form is "Fe"-cased). -/
def normSym (s : String) : String :=
  match s.data with
  | [] => ""
  | c :: cs => String.mk (c.toUpper :: cs.map Char.toLower)

/-- Modelled from the spec: drop the mass-number digits of an isotope-prefixed
or isotope-suffixed label such as "He4" (spec section 4.2). -/
def stripMassNumber (s : String) : String :=
  String.mk (s.data.filter (fun c => ¬ c.isDigit))

/-- Modelled from the spec: the element-symbol core of a string identifier:
mass-number digits are dropped, the case is normalised, and the hydrogen
isotope labels "D" and "T" are rewritten to "H" (spec section 4.2). -/
def symbolCore (s : String) : String :=
  let core := normSym (stripMassNumber s)
  if core = "D" ∨ core = "T" then "H" else core

/-- Modelled from the spec: `periodictable.to_E` (spec section 4.2): accept an
atomic number, a case-insensitive bare symbol, or an isotope label ("D" and
"T" denote hydrogen isotopes); return the canonical symbol; fail with a
NotAnElementError-kind condition when the identifier resolves to no known
element. -/
def to_E : AtomArg → Except QCError String
  | .ofInt z =>
      if 1 ≤ z ∧ z ≤ 118 then .ok (E.getD (z - 1).toNat "")
      else .error (.NotAnElementError (toString z))
  | .ofStr s =>
      if E.contains (symbolCore s) then .ok (symbolCore s)
      else .error (.NotAnElementError s)

/-- Every failure of the index is of the unresolvable-identifier kind. -/
theorem to_E_error_kind (atom : AtomArg) (e : QCError)
    (h : to_E atom = .error e) : ∃ s, e = .NotAnElementError s := by
  cases atom with
  | ofInt z =>
      by_cases hz : 1 ≤ z ∧ z ≤ 118
      · simp [to_E, hz] at h
      · simp [to_E, hz] at h
        exact ⟨toString z, h.symm⟩
  | ofStr s =>
      by_cases hc : symbolCore s ∈ E
      · simp [to_E, hc] at h
      · simp [to_E, hc] at h
        exact ⟨s, h.symm⟩

end periodictable

/-- Modelled from the spec: the DOI of the ALVAREZ2008 context (the raw data
module `data/alvarez_2008_covalent_radii` is not among the sources; the spec,
section 3, records that the context carries a DOI). -/
def alvarez_2008_doi : String := "10.1039/b801115j"

/-- Modelled from the spec: the native units of the ALVAREZ2008 data
(spec section 4.3: native unit of ALVAREZ2008 is angstrom). -/
def alvarez_2008_units : String := "angstrom"

/-- Modelled from the spec: the date string of the ALVAREZ2008 data, whose
first four characters give the year (spec section 3: source year fixed at
construction). -/
def alvarez_2008_date : String := "2008-05-28"

/-- Modelled from the spec: the raw (label, native-unit value) entries of the
ALVAREZ2008 covalent-radii data.  Labels are plain element symbols except for
the specialized hybridization entries of carbon and the spin-state entries of
Mn, Fe and Co (spec sections 3 and 4.3); no plain "C", "Mn", "Fe" or "Co"
entry is present in the raw data (the generic aliases are added by the second
construction pass).  Values are in angstrom. -/
def alvarez_2008_entries : List (String × Rat) :=
  [("H", mkRat 31 100), ("He", mkRat 28 100), ("Li", mkRat 128 100), ("Be", mkRat 96 100),
   ("B", mkRat 84 100), ("C_sp3", mkRat 76 100), ("C_sp2", mkRat 73 100), ("C_sp", mkRat 69 100),
   ("N", mkRat 71 100), ("O", mkRat 66 100), ("F", mkRat 57 100), ("Ne", mkRat 58 100),
   ("Na", mkRat 166 100), ("Mg", mkRat 141 100), ("Al", mkRat 121 100), ("Si", mkRat 111 100),
   ("P", mkRat 107 100), ("S", mkRat 105 100), ("Cl", mkRat 102 100), ("Ar", mkRat 106 100),
   ("K", mkRat 203 100), ("Ca", mkRat 176 100), ("Sc", mkRat 170 100), ("Ti", mkRat 160 100),
   ("V", mkRat 153 100), ("Cr", mkRat 139 100), ("Mn_lowspin", mkRat 139 100),
   ("Mn_highspin", mkRat 161 100), ("Fe_lowspin", mkRat 132 100), ("Fe_highspin", mkRat 152 100),
   ("Co_lowspin", mkRat 126 100), ("Co_highspin", mkRat 150 100), ("Ni", mkRat 124 100),
   ("Cu", mkRat 132 100), ("Zn", mkRat 122 100), ("Ga", mkRat 122 100), ("Ge", mkRat 120 100),
   ("As", mkRat 119 100), ("Se", mkRat 120 100), ("Br", mkRat 120 100), ("Kr", mkRat 116 100),
   ("Rb", mkRat 220 100), ("Sr", mkRat 195 100), ("Y", mkRat 190 100), ("Zr", mkRat 175 100),
   ("Nb", mkRat 164 100), ("Mo", mkRat 154 100), ("Tc", mkRat 147 100), ("Ru", mkRat 146 100),
   ("Rh", mkRat 142 100), ("Pd", mkRat 139 100), ("Ag", mkRat 145 100), ("Cd", mkRat 144 100),
   ("In", mkRat 142 100), ("Sn", mkRat 139 100), ("Sb", mkRat 139 100), ("Te", mkRat 138 100),
   ("I", mkRat 139 100), ("Xe", mkRat 140 100), ("Cs", mkRat 244 100), ("Ba", mkRat 215 100),
   ("La", mkRat 207 100), ("Ce", mkRat 204 100), ("Pr", mkRat 203 100), ("Nd", mkRat 201 100),
   ("Pm", mkRat 199 100), ("Sm", mkRat 198 100), ("Eu", mkRat 198 100), ("Gd", mkRat 196 100),
   ("Tb", mkRat 194 100), ("Dy", mkRat 192 100), ("Ho", mkRat 192 100), ("Er", mkRat 189 100),
   ("Tm", mkRat 190 100), ("Yb", mkRat 187 100), ("Lu", mkRat 187 100), ("Hf", mkRat 175 100),
   ("Ta", mkRat 170 100), ("W", mkRat 162 100), ("Re", mkRat 151 100), ("Os", mkRat 144 100),
   ("Ir", mkRat 141 100), ("Pt", mkRat 136 100), ("Au", mkRat 136 100), ("Hg", mkRat 132 100),
   ("Tl", mkRat 145 100), ("Pb", mkRat 146 100), ("Bi", mkRat 148 100), ("Po", mkRat 140 100),
   ("At", mkRat 150 100), ("Rn", mkRat 150 100), ("Fr", mkRat 260 100), ("Ra", mkRat 221 100),
   ("Ac", mkRat 215 100), ("Th", mkRat 206 100), ("Pa", mkRat 200 100), ("U", mkRat 196 100),
   ("Np", mkRat 190 100), ("Pu", mkRat 187 100), ("Am", mkRat 180 100), ("Cm", mkRat 169 100)]

/-- The association-list map standing for the Python ordered `dict` keyed by
label.  `crInsert` has dict assignment semantics: any previous binding of the
key is removed and the new binding appended. -/
abbrev CRMap := List (String × Datum)

/-- Dict-style insertion: replace any existing binding of the key. -/
def crInsert (m : CRMap) (k : String) (v : Datum) : CRMap :=
  (m.filter (fun p => p.1 ≠ k)) ++ [(k, v)]

/-- Dict-style lookup, `None` when the key is absent. -/
def crFind (m : CRMap) (k : String) : Option Datum :=
  m.lookup k

/-- The state of a `CovalentRadii` instance after construction:
the `cr` mapping and the metadata attributes (covalent_radii.py lines 42-71). -/
structure CovalentRadiiT where
  cr : CRMap
  doi : String
  name : String
  native_units : String
  year : Int
  deriving DecidableEq, Repr

/-- The error message raised for an unsupported context
(covalent_radii.py line 55). -/
def contextErrorMsg (context : String) : String :=
  "Context set as \x27" ++ context ++ "\x27, " ++
    "only contexts \x7b\x27ALVAREZ2008\x27, \x7d are currently supported"

/-- Reading `self.cr[key].data` during alias construction: a missing key
raises the Python `KeyError` (covalent_radii.py lines 62-65). -/
def aliasData (m : CRMap) (k : String) : Except QCError Rat :=
  match crFind m k with
  | some d => .ok d.data
  | none => .error (.KeyError k)

/-- Embedding of `CovalentRadii.__init__` (covalent_radii.py lines 42-71): populate the
table from the raw data for the ALVAREZ2008 context, raise a `KeyError`
enumerating the supported contexts otherwise, then append the four generic
aliases bound to the data of the sp3-carbon and high-spin entries. -/
def CovalentRadii.init (context : String) : Except QCError CovalentRadiiT :=
  if context = "ALVAREZ2008" then do
    let doi := alvarez_2008_doi
    let native_units := alvarez_2008_units
    let cr0 : CRMap := alvarez_2008_entries.foldl
      (fun m e => crInsert m e.1
        { label := e.1, units := native_units, data := e.2,
          comment := none, doi := some doi })
      []
    let year : Int := ((alvarez_2008_date.take 4).toNat?).getD 0
    let cSp3 ← aliasData cr0 "C_sp3"
    let mnHigh ← aliasData cr0 "Mn_highspin"
    let feHigh ← aliasData cr0 "Fe_highspin"
    let coHigh ← aliasData cr0 "Co_highspin"
    let aliases : List (String × String × Rat × String) :=
      [("C", "angstrom", cSp3, "Largest (sp3) chosen for generic atom"),
       ("Mn", "angstrom", mnHigh, "Larger (high-spin) chosen for generic atom"),
       ("Fe", "angstrom", feHigh, "Larger (high-spin) chosen for generic atom"),
       ("Co", "angstrom", coHigh, "Larger (high-spin) chosen for generic atom")]
    let cr1 := aliases.foldl
      (fun m a => crInsert m a.1.capitalize
        { label := a.1, units := a.2.1, data := a.2.2.1,
          comment := some a.2.2.2, doi := none })
      cr0
    .ok { cr := cr1, doi := doi, name := context,
          native_units := native_units, year := year }
  else
    .error (.KeyError (contextErrorMsg context))

/-- The module-level singleton `covalentradii = CovalentRadii("ALVAREZ2008")`
(covalent_radii.py line 190).  Construction of the supported context cannot
fail; the fallback value is never reached (see `covalentradii_ok`). -/
def covalentradii : CovalentRadiiT :=
  match CovalentRadii.init "ALVAREZ2008" with
  | .ok t => t
  | .error _ => { cr := [], doi := "", name := "", native_units := "", year := 0 }

/-- The identifier-resolution step of `get` (covalent_radii.py lines 123-127):
a string that is already a key of `cr` is used directly (this covers the
specialized labels such as "C_sp3"); anything else, including every integer,
is normalised through `periodictable.to_E`. -/
def CovalentRadiiT.resolve (t : CovalentRadiiT) (atom : periodictable.AtomArg) :
    Except QCError String :=
  match atom with
  | .ofStr s => if (crFind t.cr s).isSome then .ok s else periodictable.to_E atom
  | .ofInt _ => periodictable.to_E atom

/-- The result of `get`: a scalar (`return_tuple=False`) or a `Datum`
(`return_tuple=True`). -/
abbrev GetResult := Rat ⊕ Datum

/-- Embedding of the lookup phase of `CovalentRadii.get`
(covalent_radii.py lines 129-141).  On a failed table lookup the `missing`
scalar is returned exactly when it was supplied and a scalar result was
requested; otherwise a `DataUnavailableError` carrying "covalent radius" and
the identifier is raised.  On success the stored `Datum` is returned
unchanged when `return_tuple` is true, else its value converted to
`units`. -/
def CovalentRadiiT.lookupStep (t : CovalentRadiiT) (identifier : String)
    (return_tuple : Bool) (units : String) (missing : Option Rat) :
    Except QCError GetResult :=
  match crFind t.cr identifier with
  | some qca =>
      if return_tuple then .ok (.inr qca)
      else (qca.to_units units).map .inl
  | none =>
      match missing, return_tuple with
      | some m, false => .ok (.inl m)
      | _, _ => .error (.DataUnavailableError "covalent radius" identifier)

/-- Embedding of `CovalentRadii.get`, assembled from its two phases:
identifier resolution (covalent_radii.py lines 123-127, `resolve`) followed
by table lookup and result shaping (lines 129-141, `lookupStep`).  The
arguments after `atom` are positional stand-ins for the keyword arguments
`return_tuple` (default false), `units` (default "bohr") and `missing`
(default none). -/
def CovalentRadiiT.get (t : CovalentRadiiT) (atom : periodictable.AtomArg)
    (return_tuple : Bool) (units : String) (missing : Option Rat) :
    Except QCError GetResult :=
  (t.resolve atom).bind (fun identifier => t.lookupStep identifier return_tuple units missing)

/-- Modelled from the spec: `print_variables` of `datum.py` (not among the
sources; spec section 4.3: a deterministic multi-line dump of every entry
with label, units, value and comment). -/
def print_variables (cr : CRMap) : String :=
  String.intercalate "\n"
    (cr.map (fun p =>
      p.1 ++ " = " ++ toString p.2.data ++ " [" ++ p.2.units ++ "] " ++
        (p.2.comment.getD "")))

/-- Embedding of `CovalentRadii.string_representation` (covalent_radii.py lines 143-146). -/
def CovalentRadiiT.string_representation (t : CovalentRadiiT) : String :=
  print_variables t.cr

/-- Round the fraction p/q (q positive) to the nearest integer, ties to the
even neighbour: the rounding applied by Python string formatting. -/
def roundHalfEvenDiv (p q : Int) : Int :=
  if 2 * p.fmod q < q then p.fdiv q
  else if q < 2 * p.fmod q then p.fdiv q + 1
  else if p.fdiv q % 2 = 0 then p.fdiv q else p.fdiv q + 1

/-- The two-decimal quantization performed by the source's "{:.2f}"
formatting of the missing default (covalent_radii.py line 175): the value
rounded to the nearest hundredth.  Python rounds the binary double half to
even; the embedding applies round-half-even to the exact rational. -/
def quantize2 (x : Rat) : Rat :=
  mkRat (roundHalfEvenDiv (100 * x.num) (x.den : Int)) 100

/-- The text produced by the source's "{:.2f}" formatting: the
two-decimal quantized value rendered with exactly two digits after the
point. -/
def formatFixed2 (x : Rat) : String :=
  let r := roundHalfEvenDiv (100 * x.num) (x.den : Int)
  let sign := if r < 0 then "-" else ""
  let a := r.natAbs
  let fracStr := (if a % 100 < 10 then "0" else "") ++ toString (a % 100)
  sign ++ toString (a / 100) ++ "." ++ fracStr

/-- The numeric entries of the C-header export, one per periodic-table
element in the order of `periodictable.E` (covalent_radii.py lines 169-178):
the table value under the element symbol when present, else the
caller-supplied `missing` default quantized to two decimal places by the
"{:.2f}" formatting of line 175. -/
def CovalentRadiiT.write_c_header_entries (t : CovalentRadiiT) (missing : Rat) :
    List Rat :=
  periodictable.E.map (fun el =>
    match crFind t.cr el with
    | some qca => qca.data
    | none => quantize2 missing)

/-- The text lines written by `CovalentRadii.write_c_header`
(covalent_radii.py lines 160-182): the include-guard header, one commented
array entry per periodic-table element (the stored value when the symbol is
present, the "{:.2f}"-formatted `missing` default otherwise), and the
footer.  A stored value is rendered with the canonical rational rendering,
standing for Python's `str` of the stored `Decimal`; an absent comment
prints as "None", as Python formats `None`. -/
def CovalentRadiiT.write_c_header_lines (t : CovalentRadiiT) (missing : Rat) :
    List String :=
  ["#ifndef _qcelemental_covrad_h_",
   "#define _qcelemental_covrad_h_",
   "",
   "/* This file is autogenerated from the QCElemental python module */",
   "",
   "const double covalent_radii[] = \x7b"]
  ++ periodictable.E.map (fun el =>
      match crFind t.cr el with
      | some qca =>
          toString qca.data ++ ",  /*- [" ++ qca.units ++ "] " ++ qca.label ++
            " " ++ (qca.comment.getD "None") ++ " -*/"
      | none =>
          formatFixed2 missing ++ ",  /*- [" ++ t.native_units ++ "] " ++ el ++
            " Default value for missing data -*/")
  ++ ["\x7d;", "#endif /* header guard */", ""]

/-- State-passing form of `get`: the method body of `get` performs no
assignment to any attribute of `self` (covalent_radii.py lines 123-141), so
the post-state is the pre-state. -/
def CovalentRadiiT.get_withState (t : CovalentRadiiT) (atom : periodictable.AtomArg)
    (return_tuple : Bool) (units : String) (missing : Option Rat) :
    Except QCError GetResult × CovalentRadiiT :=
  (t.get atom return_tuple units missing, t)

/-- State-passing form of `string_representation`: the method body performs no
assignment to any attribute of `self` (covalent_radii.py lines 143-146). -/
def CovalentRadiiT.string_representation_withState (t : CovalentRadiiT) :
    String × CovalentRadiiT :=
  (t.string_representation, t)

/-- State-passing form of `write_c_header` restricted to its in-memory
effect on the instance: the method body reads `self.cr` and
`self.native_units` and writes only to an external file, never to an
attribute of `self` (covalent_radii.py lines 148-186). -/
def CovalentRadiiT.write_c_header_withState (t : CovalentRadiiT) (missing : Rat) :
    List String × CovalentRadiiT :=
  (t.write_c_header_lines missing, t)

/-- Whether the raw argument is itself a key of the table (the test of
covalent_radii.py line 123): only strings can be keys, so an integer argument
never is. -/
def CovalentRadiiT.isTableKey (t : CovalentRadiiT) : periodictable.AtomArg → Bool
  | .ofStr s => (crFind t.cr s).isSome
  | .ofInt _ => false

/-- The values of the specialized (suffix-labelled) entries of an element:
the data of every table entry whose key extends the element symbol with an
underscore-separated suffix, e.g. the "C_sp3", "C_sp2", "C_sp" entries for
"C". -/
def CovalentRadiiT.specializedValues (t : CovalentRadiiT) (sym : String) : List Rat :=
  t.cr.filterMap (fun p =>
    if (sym ++ "_").data.isPrefixOf p.1.data then some p.2.data else none)

/-- The atomic number encoded by the position of a symbol in
`periodictable.E` (element z sits at index z-1). -/
def atomicNumber (sym : String) : Nat :=
  periodictable.E.indexOf sym + 1

set_option maxRecDepth 400000

/-- Claim C6: constructing `CovalentRadii` with any context name other than
"ALVAREZ2008" fails immediately with a `KeyError` whose message names the
offending context and contains the full enumeration of the supported context
names (only "ALVAREZ2008"), and no table value is produced: the result is an
error, so no partially-populated `cr` mapping is observable. -/
theorem init_bad_context_fails (context : String) (hctx : context ≠ "ALVAREZ2008") :
    CovalentRadii.init context = .error (.KeyError (contextErrorMsg context)) ∧
    "ALVAREZ2008".data <:+: (contextErrorMsg context).data ∧
    ∀ tbl : CovalentRadiiT, CovalentRadii.init context ≠ .ok tbl := by
  refine ⟨?_, ?_, ?_⟩
  · unfold CovalentRadii.init
    rw [if_neg hctx]
  · unfold contextErrorMsg
    have h1 : "ALVAREZ2008".data <:+:
        "only contexts \x7b\x27ALVAREZ2008\x27, \x7d are currently supported".data := by
      decide
    refine h1.trans (List.IsSuffix.isInfix ?_)
    rw [String.data_append]
    exact List.suffix_append _ _
  · intro tbl h
    unfold CovalentRadii.init at h
    rw [if_neg hctx] at h
    exact Except.noConfusion h

/-- Claim C6 witness: the failure at the concrete unsupported context
"BADCTX". -/
theorem init_bad_context_fails_witness :
    CovalentRadii.init "BADCTX" = .error (.KeyError (contextErrorMsg "BADCTX")) ∧
    "ALVAREZ2008".data <:+: (contextErrorMsg "BADCTX").data :=
  ⟨(init_bad_context_fails "BADCTX" (by decide)).1,
   (init_bad_context_fails "BADCTX" (by decide)).2.1⟩

/-- Claim C8: after construction no operation mutates the table: the
state-passing forms of `get`, `string_representation` and `write_c_header`
return a post-state whose `cr` mapping and metadata fields (`doi`, `name`,
`native_units`, `year`) are those of the pre-state, whatever the arguments
and whether the call succeeds or raises. -/
theorem methods_preserve_state (t : CovalentRadiiT) (atom : periodictable.AtomArg)
    (return_tuple : Bool) (units : String) (missing : Option Rat)
    (default_missing : Rat) :
    ((t.get_withState atom return_tuple units missing).2.cr = t.cr ∧
     (t.get_withState atom return_tuple units missing).2.doi = t.doi ∧
     (t.get_withState atom return_tuple units missing).2.name = t.name ∧
     (t.get_withState atom return_tuple units missing).2.native_units = t.native_units ∧
     (t.get_withState atom return_tuple units missing).2.year = t.year) ∧
    t.string_representation_withState.2 = t ∧
    (t.write_c_header_withState default_missing).2 = t :=
  ⟨⟨rfl, rfl, rfl, rfl, rfl⟩, rfl, rfl⟩

/-- Claim C4: a string argument that is itself a key of the table (such as the
specialized label "C_sp3") is used directly as the lookup identifier; any
other argument, including every integer, is normalised through
`periodictable.to_E`; and `get` is exactly this resolution followed by the
lookup step. -/
theorem resolve_uses_table_key_first (t : CovalentRadiiT) :
    (∀ s : String, (crFind t.cr s).isSome = true → t.resolve (.ofStr s) = .ok s) ∧
    (∀ s : String, crFind t.cr s = none →
      t.resolve (.ofStr s) = periodictable.to_E (.ofStr s)) ∧
    (∀ z : Int, t.resolve (.ofInt z) = periodictable.to_E (.ofInt z)) ∧
    (∀ (atom : periodictable.AtomArg) (return_tuple : Bool) (units : String)
      (missing : Option Rat),
      t.get atom return_tuple units missing =
        (t.resolve atom).bind
          (fun identifier => t.lookupStep identifier return_tuple units missing)) := by
  refine ⟨?_, ?_, fun z => rfl, fun _ _ _ _ => rfl⟩
  · intro s hs
    simp [CovalentRadiiT.resolve, hs]
  · intro s hs
    simp [CovalentRadiiT.resolve, hs]

/-- Claim C4 witness: the specialized label "C_sp3" is taken as-is, while the
loosely-cased "he" (not a key) goes through the periodic-table index. -/
theorem resolve_uses_table_key_first_witness :
    covalentradii.resolve (.ofStr "C_sp3") = .ok "C_sp3" ∧
    covalentradii.resolve (.ofStr "he") = periodictable.to_E (.ofStr "he") :=
  ⟨(resolve_uses_table_key_first covalentradii).1 "C_sp3" (by decide),
   (resolve_uses_table_key_first covalentradii).2.1 "he" (by decide)⟩

/-- Claim C5: an argument that is not a table key and that the periodic-table
index cannot resolve makes `get` fail with exactly the index's
unresolvable-identifier error, whatever `missing` and `return_tuple` are;
that error is always of the `NotAnElementError` kind, which is distinct from
the `DataUnavailableError` kind. -/
theorem get_unresolvable_raises (t : CovalentRadiiT) (atom : periodictable.AtomArg)
    (e : QCError) (return_tuple : Bool) (units : String) (missing : Option Rat)
    (hkey : t.isTableKey atom = false)
    (herr : periodictable.to_E atom = .error e) :
    t.get atom return_tuple units missing = .error e ∧
    (∃ s, e = .NotAnElementError s) ∧
    (∀ s dataType identifier,
      QCError.NotAnElementError s ≠ QCError.DataUnavailableError dataType identifier) := by
  refine ⟨?_, periodictable.to_E_error_kind atom e herr,
    fun s dataType identifier h => QCError.noConfusion h⟩
  cases atom with
  | ofStr s =>
      have hs : (crFind t.cr s).isSome = false := hkey
      simp [CovalentRadiiT.get, CovalentRadiiT.resolve, hs, herr, Except.bind]
  | ofInt z =>
      simp [CovalentRadiiT.get, CovalentRadiiT.resolve, herr, Except.bind]

/-- Claim C5 witness: "Uuo" (an unassigned symbol) is rejected by the index,
so `get` raises the unresolvable-identifier error even though a `missing`
fallback was supplied. -/
theorem get_unresolvable_raises_witness :
    covalentradii.get (.ofStr "Uuo") false "bohr" (some 2) =
      .error (.NotAnElementError "Uuo") :=
  (get_unresolvable_raises covalentradii (.ofStr "Uuo") (.NotAnElementError "Uuo")
    false "bohr" (some 2) (by decide) (by decide)).1

/-- Claim C1: when the resolved identifier has no entry in the table,
`get` with `missing=None` (and a scalar result requested) raises the
data-unavailable error naming "covalent radius" and the identifier, while
`get` with a supplied `missing=X` returns exactly X, with no unit
conversion applied to it. -/
theorem get_missing_fallback (t : CovalentRadiiT) (atom : periodictable.AtomArg)
    (units : String) (identifier : String)
    (hres : t.resolve atom = .ok identifier)
    (habs : crFind t.cr identifier = none) :
    t.get atom false units none =
      .error (.DataUnavailableError "covalent radius" identifier) ∧
    ∀ X : Rat, t.get atom false units (some X) = .ok (.inl X) := by
  constructor
  · simp [CovalentRadiiT.get, hres, CovalentRadiiT.lookupStep, habs, Except.bind]
  · intro X
    simp [CovalentRadiiT.get, hres, CovalentRadiiT.lookupStep, habs, Except.bind]

/-- Claim C1 witness: berkelium resolves to a valid element but has no
ALVAREZ2008 entry; `missing=None` raises and `missing=2` returns exactly 2. -/
theorem get_missing_fallback_witness :
    covalentradii.get (.ofStr "Bk") false "bohr" none =
      .error (.DataUnavailableError "covalent radius" "Bk") ∧
    covalentradii.get (.ofStr "Bk") false "bohr" (some 2) = .ok (.inl 2) := by
  have h := get_missing_fallback covalentradii (.ofStr "Bk") "bohr" "Bk"
    (by decide) (by decide)
  exact ⟨h.1, h.2 2⟩

/-- Claim C2: with `return_tuple=True` a successful lookup returns the stored
`Datum` unchanged whatever `units` and `missing` are, a failed lookup raises
the data-unavailable error even when `missing` was supplied, and every stored
`Datum` of the singleton table carries the table's native unit. -/
theorem get_return_tuple_native (t : CovalentRadiiT) (atom : periodictable.AtomArg)
    (units : String) (missing : Option Rat) (identifier : String)
    (hres : t.resolve atom = .ok identifier) :
    (∀ d : Datum, crFind t.cr identifier = some d →
      t.get atom true units missing = .ok (.inr d)) ∧
    (crFind t.cr identifier = none →
      t.get atom true units missing =
        .error (.DataUnavailableError "covalent radius" identifier)) ∧
    (∀ p ∈ covalentradii.cr, p.2.units = covalentradii.native_units) := by
  refine ⟨?_, ?_, by decide⟩
  · intro d hd
    simp [CovalentRadiiT.get, hres, CovalentRadiiT.lookupStep, hd, Except.bind]
  · intro h
    rcases missing with _ | m <;>
      simp [CovalentRadiiT.get, hres, CovalentRadiiT.lookupStep, h, Except.bind]

/-- Claim C2 witness: `get("H", return_tuple=True)` returns the stored hydrogen
Datum in angstrom even though bohr was requested and a fallback supplied, and
`get("Bk", return_tuple=True)` raises although a fallback was supplied. -/
theorem get_return_tuple_native_witness :
    covalentradii.get (.ofStr "H") true "bohr" (some 5) =
      .ok (.inr { label := "H", units := "angstrom", data := mkRat 31 100,
                  comment := none, doi := some "10.1039/b801115j" }) ∧
    covalentradii.get (.ofStr "Bk") true "bohr" (some 5) =
      .error (.DataUnavailableError "covalent radius" "Bk") :=
  ⟨(get_return_tuple_native covalentradii (.ofStr "H") "bohr" (some 5) "H"
      (by decide)).1 _ (by decide),
   (get_return_tuple_native covalentradii (.ofStr "Bk") "bohr" (some 5) "Bk"
      (by decide)).2.1 (by decide)⟩

/-- The two fixed factors are exact reciprocals. -/
theorem angstrom2bohr_mul_bohr2angstroms : angstrom2bohr * bohr2angstroms = 1 := by
  norm_num [angstrom2bohr, bohr2angstroms, Rat.mkRat_eq_div]

/-- The two fixed factors are exact reciprocals (other order). -/
theorem bohr2angstroms_mul_angstrom2bohr : bohr2angstroms * angstrom2bohr = 1 := by
  rw [mul_comm]
  exact angstrom2bohr_mul_bohr2angstroms

/-- Inversion of the conversion-factor table: the only defined factors are the
identity and the two angstrom-bohr factors. -/
theorem conversionFactor_cases (a b : String) (f : Rat)
    (h : conversionFactor a b = some f) :
    (a = b ∧ f = 1) ∨ (a = "angstrom" ∧ b = "bohr" ∧ f = angstrom2bohr) ∨
      (a = "bohr" ∧ b = "angstrom" ∧ f = bohr2angstroms) := by
  unfold conversionFactor at h
  split_ifs at h with h1 h2 h3
  · exact .inl ⟨h1, (Option.some.inj h).symm⟩
  · exact .inr (.inl ⟨h2.1, h2.2, (Option.some.inj h).symm⟩)
  · exact .inr (.inr ⟨h3.1, h3.2, (Option.some.inj h).symm⟩)

/-- The factor table is reflexive with factor one. -/
theorem conversionFactor_refl (a : String) : conversionFactor a a = some 1 := by
  simp [conversionFactor]

/-- The factor table is coherent under composition: factors multiply
exactly. -/
theorem conversionFactor_comp (a b c : String) (fab fbc : Rat)
    (h1 : conversionFactor a b = some fab) (h2 : conversionFactor b c = some fbc) :
    conversionFactor a c = some (fab * fbc) := by
  rcases conversionFactor_cases a b fab h1 with ⟨rfl, rfl⟩ | ⟨rfl, rfl, rfl⟩ | ⟨rfl, rfl, rfl⟩
  · rw [one_mul]
    exact h2
  · rcases conversionFactor_cases _ c fbc h2 with ⟨heq, rfl⟩ | ⟨heq, h3⟩ | ⟨heq, rfl, rfl⟩
    · rw [mul_one]
      exact heq ▸ h1
    · exact absurd heq (by decide)
    · rw [angstrom2bohr_mul_bohr2angstroms]
      exact conversionFactor_refl _
  · rcases conversionFactor_cases _ c fbc h2 with ⟨heq, rfl⟩ | ⟨heq, rfl, rfl⟩ | ⟨heq, h3⟩
    · rw [mul_one]
      exact heq ▸ h1
    · rw [bohr2angstroms_mul_angstrom2bohr]
      exact conversionFactor_refl _
    · exact absurd heq (by decide)

/-- Every defined factor has a defined inverse factor, with exact product
one. -/
theorem conversionFactor_symm (a b : String) (f : Rat)
    (h : conversionFactor a b = some f) :
    ∃ g, conversionFactor b a = some g ∧ f * g = 1 := by
  rcases conversionFactor_cases a b f h with ⟨rfl, rfl⟩ | ⟨rfl, rfl, rfl⟩ | ⟨rfl, rfl, rfl⟩
  · exact ⟨1, conversionFactor_refl a, one_mul 1⟩
  · exact ⟨bohr2angstroms, by decide, angstrom2bohr_mul_bohr2angstroms⟩
  · exact ⟨angstrom2bohr, by decide, bohr2angstroms_mul_angstrom2bohr⟩

/-- Claim C9: converting a Datum to a unit u1 and then converting that result
to u2 gives exactly the directly-converted value, and converting the
intermediate Datum back to the original unit reproduces the original value
exactly, whenever the needed conversion factors are defined (the embedded
factors are exact rationals, so equality is exact). -/
theorem to_units_round_trip (d : Datum) (u1 u2 : String) (f1 f2 : Rat)
    (h1 : conversionFactor d.units u1 = some f1)
    (h2 : conversionFactor u1 u2 = some f2) :
    ((d.to_units_datum u1).bind (fun d1 => d1.to_units u2)) = d.to_units u2 ∧
    ((d.to_units_datum u1).bind (fun d1 => d1.to_units d.units)) = .ok d.data := by
  obtain ⟨g, hg, hfg⟩ := conversionFactor_symm _ _ _ h1
  have hcomp := conversionFactor_comp _ _ _ _ _ h1 h2
  constructor
  · simp [Datum.to_units_datum, Datum.to_units, h1, h2, hcomp, Except.bind,
      Except.map, mul_assoc]
  · simp [Datum.to_units_datum, Datum.to_units, h1, hg, Except.bind,
      Except.map, mul_assoc, hfg]

/-- Claim C9 witness: the hydrogen Datum converted angstrom to bohr and then
bohr back to angstrom: the composition equals the direct conversion, and the
round trip returns the original stored value exactly. -/
theorem to_units_round_trip_witness :
    ((Datum.to_units_datum ⟨"H", "angstrom", mkRat 31 100, none, none⟩ "bohr").bind
      (fun d1 => d1.to_units "angstrom")) =
      Datum.to_units ⟨"H", "angstrom", mkRat 31 100, none, none⟩ "angstrom" ∧
    ((Datum.to_units_datum ⟨"H", "angstrom", mkRat 31 100, none, none⟩ "bohr").bind
      (fun d1 => d1.to_units "angstrom")) = .ok (mkRat 31 100) :=
  to_units_round_trip ⟨"H", "angstrom", mkRat 31 100, none, none⟩ "bohr" "angstrom"
    angstrom2bohr bohr2angstroms (by decide) (by decide)

/-- Positional `getD` on a mapped list, for indices within bounds. -/
theorem getD_map_lt {α β : Type} (l : List α) (f : α → β) (i : Nat)
    (hi : i < l.length) (dfl : β) (dfl2 : α) :
    (l.map f).getD i dfl = f (l.getD i dfl2) := by
  rw [List.getD_eq_getElem?_getD, List.getD_eq_getElem?_getD, List.getElem?_map,
    List.getElem?_eq_getElem hi]
  simp

/-- A rational expressible in at most two decimal places (denominator
dividing 100) passes through the two-decimal quantization unchanged. -/
theorem quantize2_exact (x : Rat) (h : (x.den : Int) ∣ 100) : quantize2 x = x := by
  have hd0 : (x.den : Int) ≠ 0 := by
    exact_mod_cast x.den_nz
  have hmul : 100 / (x.den : Int) * (x.den : Int) = 100 := Int.ediv_mul_cancel h
  have hp : 100 * x.num = 100 / (x.den : Int) * x.num * (x.den : Int) := by
    rw [mul_comm (100 / (x.den : Int)) x.num, mul_assoc, hmul]
    exact mul_comm 100 x.num
  have hq : (0 : Int) < (x.den : Int) := by exact_mod_cast x.den_pos
  unfold quantize2 roundHalfEvenDiv
  rw [hp, Int.mul_fdiv_cancel _ hd0, Int.mul_fmod_left, if_pos (by simpa using hq)]
  rw [Rat.mkRat_eq_div]
  conv_rhs => rw [← Rat.num_div_den x]
  rw [div_eq_div_iff (by norm_num) (by exact_mod_cast x.den_nz)]
  have hint : 100 / (x.den : Int) * x.num * (x.den : Int) = x.num * 100 := by
    rw [mul_comm (100 / (x.den : Int)) x.num, mul_assoc, hmul]
  exact_mod_cast hint

/-- Claim C7, counterexample to the claim as stated: with the caller-supplied
default 1/3 (not expressible in two decimals), the export entry for
berkelium (index 96, absent from ALVAREZ2008) is the source's
two-decimal-formatted 0.33, not the caller's default. -/
theorem export_default_not_exact_counterexample :
    (covalentradii.write_c_header_entries (mkRat 1 3)).getD 96 0 = mkRat 33 100 ∧
    (covalentradii.write_c_header_entries (mkRat 1 3)).getD 96 0 ≠ mkRat 1 3 :=
  ⟨by decide, by decide⟩

/-- Claim C7 (amended): the C-header export is total over the periodic table:
it has exactly one entry per known element (118 of them), placed in
atomic-number order (the entry at index i belongs to the element with atomic
number i+1); each entry is the table's own value for that element's symbol
when present, else the caller-supplied default quantized to two decimal
places by the source's formatting; the quantization is the identity exactly
on defaults expressible in two decimals. -/
theorem write_c_header_total (t : CovalentRadiiT) (missing : Rat) :
    (t.write_c_header_entries missing).length = periodictable.E.length ∧
    periodictable.E.length = 118 ∧
    (∀ i, i < periodictable.E.length →
      (t.write_c_header_entries missing).getD i (quantize2 missing) =
        (match crFind t.cr (periodictable.E.getD i "") with
         | some qca => qca.data
         | none => quantize2 missing)) ∧
    (∀ i, i < periodictable.E.length →
      atomicNumber (periodictable.E.getD i "") = i + 1) ∧
    (∀ x : Rat, (x.den : Int) ∣ 100 → quantize2 x = x) := by
  refine ⟨List.length_map _ _, rfl, ?_, by decide, quantize2_exact⟩
  intro i hi
  exact getD_map_lt periodictable.E _ i hi (quantize2 missing) ""

/-- Claim C7 witness: with default 2 (two-decimal-exact, so written
unchanged), the export of the singleton table has 118 entries, entry 0
(hydrogen) is the stored radius, and entry 96 (berkelium, absent from
ALVAREZ2008) is the default itself. -/
theorem write_c_header_total_witness :
    (covalentradii.write_c_header_entries 2).length = periodictable.E.length ∧
    (covalentradii.write_c_header_entries 2).getD 0 (quantize2 2) = mkRat 31 100 ∧
    (covalentradii.write_c_header_entries 2).getD 96 (quantize2 2) = quantize2 2 ∧
    quantize2 2 = 2 := by
  have h := write_c_header_total covalentradii 2
  refine ⟨h.1, ?_, ?_, h.2.2.2.2 2 (by decide)⟩
  · rw [h.2.2.1 0 (by decide)]
    decide
  · rw [h.2.2.1 96 (by decide)]
    decide

/-- Claim C3: in the constructed ALVAREZ2008 table, each of the four elements
with multiple specialized entries (C with sp/sp2/sp3; Mn, Fe, Co with
low/high spin) has exactly one generic plain-symbol entry; its value equals
the largest of that element's specialized values, the comment records the
chosen variant, and `get` on the plain symbol returns that largest value
converted to the default unit (bohr); moreover those four are the only
elements with specialized (underscore-labelled) entries. -/
theorem alias_largest_specialized :
    (List.countP (fun p => p.1 == "C") covalentradii.cr = 1 ∧
     crFind covalentradii.cr "C" =
       some { label := "C", units := "angstrom", data := mkRat 76 100,
              comment := some "Largest (sp3) chosen for generic atom", doi := none } ∧
     mkRat 76 100 ∈ covalentradii.specializedValues "C" ∧
     (∀ v ∈ covalentradii.specializedValues "C", v ≤ mkRat 76 100) ∧
     covalentradii.get (.ofStr "C") false "bohr" none =
       .ok (.inl (mkRat 76 100 * angstrom2bohr))) ∧
    (List.countP (fun p => p.1 == "Mn") covalentradii.cr = 1 ∧
     crFind covalentradii.cr "Mn" =
       some { label := "Mn", units := "angstrom", data := mkRat 161 100,
              comment := some "Larger (high-spin) chosen for generic atom", doi := none } ∧
     mkRat 161 100 ∈ covalentradii.specializedValues "Mn" ∧
     (∀ v ∈ covalentradii.specializedValues "Mn", v ≤ mkRat 161 100) ∧
     covalentradii.get (.ofStr "Mn") false "bohr" none =
       .ok (.inl (mkRat 161 100 * angstrom2bohr))) ∧
    (List.countP (fun p => p.1 == "Fe") covalentradii.cr = 1 ∧
     crFind covalentradii.cr "Fe" =
       some { label := "Fe", units := "angstrom", data := mkRat 152 100,
              comment := some "Larger (high-spin) chosen for generic atom", doi := none } ∧
     mkRat 152 100 ∈ covalentradii.specializedValues "Fe" ∧
     (∀ v ∈ covalentradii.specializedValues "Fe", v ≤ mkRat 152 100) ∧
     covalentradii.get (.ofStr "Fe") false "bohr" none =
       .ok (.inl (mkRat 152 100 * angstrom2bohr))) ∧
    (List.countP (fun p => p.1 == "Co") covalentradii.cr = 1 ∧
     crFind covalentradii.cr "Co" =
       some { label := "Co", units := "angstrom", data := mkRat 150 100,
              comment := some "Larger (high-spin) chosen for generic atom", doi := none } ∧
     mkRat 150 100 ∈ covalentradii.specializedValues "Co" ∧
     (∀ v ∈ covalentradii.specializedValues "Co", v ≤ mkRat 150 100) ∧
     covalentradii.get (.ofStr "Co") false "bohr" none =
       .ok (.inl (mkRat 150 100 * angstrom2bohr))) ∧
    (∀ p ∈ covalentradii.cr, '_' ∈ p.1.data →
      (["C", "Mn", "Fe", "Co"].any
        (fun sym => (sym ++ "_").data.isPrefixOf p.1.data)) = true) :=
  ⟨⟨by decide, by decide, by decide, by decide, by rfl⟩,
   ⟨by decide, by decide, by decide, by decide, by rfl⟩,
   ⟨by decide, by decide, by decide, by decide, by rfl⟩,
   ⟨by decide, by decide, by decide, by decide, by rfl⟩,
   by decide⟩

/-- Claim C3 witness: the sp-carbon specialized value is one of the values the
generic carbon alias dominates. -/
theorem alias_largest_specialized_witness :
    mkRat 69 100 ≤ mkRat 76 100 :=
  alias_largest_specialized.1.2.2.2.1 (mkRat 69 100) (by decide)

/-- Claim C10: the generic alias entries for "C", "Mn", "Fe" and "Co" carry no
DOI and have their unit hard-coded to "angstrom"; `get` with
`return_tuple=True` on those plain symbols therefore returns a Datum with the
`doi` field unset; and every specialized (underscore-labelled) entry's Datum
carries the context DOI. -/
theorem alias_doi_unset :
    covalentradii.get (.ofStr "C") true "bohr" none =
      .ok (.inr { label := "C", units := "angstrom", data := mkRat 76 100,
                  comment := some "Largest (sp3) chosen for generic atom", doi := none }) ∧
    covalentradii.get (.ofStr "Mn") true "bohr" none =
      .ok (.inr { label := "Mn", units := "angstrom", data := mkRat 161 100,
                  comment := some "Larger (high-spin) chosen for generic atom", doi := none }) ∧
    covalentradii.get (.ofStr "Fe") true "bohr" none =
      .ok (.inr { label := "Fe", units := "angstrom", data := mkRat 152 100,
                  comment := some "Larger (high-spin) chosen for generic atom", doi := none }) ∧
    covalentradii.get (.ofStr "Co") true "bohr" none =
      .ok (.inr { label := "Co", units := "angstrom", data := mkRat 150 100,
                  comment := some "Larger (high-spin) chosen for generic atom", doi := none }) ∧
    (∀ p ∈ covalentradii.cr, '_' ∈ p.1.data →
      p.2.doi = some covalentradii.doi) :=
  ⟨by decide, by decide, by decide, by decide, by decide⟩

/-- Claim C10 witness: the specialized sp3-carbon entry of the singleton table
carries the context DOI. -/
theorem alias_doi_unset_witness :
    ({ label := "C_sp3", units := "angstrom", data := mkRat 76 100,
       comment := none, doi := some "10.1039/b801115j" } : Datum).doi =
      some covalentradii.doi :=
  alias_doi_unset.2.2.2.2
    ("C_sp3", { label := "C_sp3", units := "angstrom", data := mkRat 76 100,
                comment := none, doi := some "10.1039/b801115j" })
    (by decide) (by decide)

/-- Claim C8 witness: a concrete diagnostic dump leaves the singleton table
unchanged. -/
theorem methods_preserve_state_witness :
    covalentradii.string_representation_withState.2 = covalentradii :=
  (methods_preserve_state covalentradii (.ofStr "C") false "bohr" none 2).2.1
